import Mathlib

/-!
Shallow embedding of the booking-availability and payment-reconciliation
workflow of the `alx_travel_app` backend (listings app).

Dates are modelled as integer day numbers, so a Django `DateField`
subtraction `(end_date - start_date).days` becomes plain `Int`
subtraction.  Monetary amounts (`DecimalField`) are modelled as `Int`.
Database rows are lists of structures; primary keys are `Nat`.
Each Lean definition is translated from the function of the source it
names in its doc comment.
-/

namespace AlxTravel

/-- A row of `Listing` (models.py): `property_id`, `host` (FK to User,
modelled by its id) and `price_per_night`. -/
structure Listing where
  property_id : Nat
  host : Nat
  price_per_night : Int
deriving DecidableEq

/-- A row of `Booking` (models.py): `booking_id`, the `listing` FK (by
property id), the `user` FK (guest, by user id), the date range, the
derived `total_price`, and the `status` FK modelled by its
`status_name` string. -/
structure Booking where
  booking_id : Nat
  listing : Nat
  user : Nat
  start_date : Int
  end_date : Int
  total_price : Int
  status : String
deriving DecidableEq

/-- The durable state the booking endpoints operate on. -/
structure State where
  listings : List Listing
  bookings : List Booking
deriving DecidableEq

/-- Replace the first element satisfying `p` by its image under `f`
(models an ORM `.save()` of a single fetched row back into the table). -/
def setFirst {α : Type} (p : α → Bool) (f : α → α) : List α → List α
  | [] => []
  | x :: xs => if p x then f x :: xs else x :: setFirst p f xs

/-- The abnormal terminations of `BookingCreateSerializer.validate` and
`create`, in source order.  `endDateNotAfterStart` and
`propertyNotFound` are DRF `ValidationError`s (HTTP 400 with a field
message).  `fieldError` is the `django FieldError` raised while
building the overlap queryset `Booking.objects.filter(property=...)`
(serializers.py line 149): the `Booking` model's foreign key is named
`listing` (models.py line 94), not `property`, so the filter kwargs
fail to resolve and the exception escapes the serializer as an HTTP
500.  `typeError` is the `TypeError` that
`Booking.objects.create(property=..., ...)` (serializers.py line 177)
would raise for the same reason — dead code, since `validate` always
fails first. -/
inductive BookingValidationError
  | endDateNotAfterStart
  | propertyNotFound
  | fieldError
  | typeError
deriving DecidableEq

/-- `BookingCreateSerializer.validate` (serializers.py lines 130-161):
reject `end_date <= start_date`, then look the property up; the overlap
queryset built next (line 149) filters on `property=`, a field the
`Booking` model does not have (its FK is `listing`), so Django raises
`FieldError` there on every request with valid dates and an existing
property — the availability check and the `.ok` outcome are
unreachable.  The `bookings` table the queryset would have scanned is
kept as a parameter but never consulted. -/
def BookingCreateSerializer.validate (listings : List Listing)
    (_bookings : List Booking) (property_id : Nat) (s e : Int) :
    Except BookingValidationError Listing :=
  if e ≤ s then .error .endDateNotAfterStart
  else
    match listings.find? (fun l => l.property_id == property_id) with
    | none => .error .propertyNotFound
    | some _ => .error .fieldError

/-- `BookingCreateSerializer.create` preceded by its `validate`
(serializers.py lines 130-183), with `perform_create` supplying the
requesting user: every `validate` failure propagates (a
`ValidationError` as 400, the `FieldError` as 500); the create body is
dead code, and even if it were reached,
`Booking.objects.create(property=..., ...)` at line 177 would raise
`TypeError` (again the model field is `listing`), so no booking is ever
persisted through this serializer. -/
def BookingCreateSerializer.create (st : State) (_actor _new_id : Nat)
    (property_id : Nat) (s e : Int) :
    Except BookingValidationError (State × Booking) :=
  match BookingCreateSerializer.validate st.listings st.bookings property_id s e with
  | .error er => .error er
  | .ok _ => .error .typeError

/-- `BookingViewSet.confirm` (views.py lines 244-265) together with the
object retrieval of the viewset: `get_queryset` (lines 226-236)
restricts visible bookings to those where the actor is the guest or the
property host, so other actors get a 404 from `get_object`; inside the
action, a non-host actor gets a 403 and otherwise the status is set to
`confirmed` (no source-state check).  Returns the HTTP status code and
the resulting state. -/
def BookingViewSet.confirm (st : State) (actor booking_id : Nat) :
    Nat × State :=
  match st.bookings.find? (fun b => b.booking_id == booking_id) with
  | none => (404, st)
  | some b =>
    match st.listings.find? (fun l => l.property_id == b.listing) with
    | none => (404, st)
    | some l =>
      if !(actor == b.user || actor == l.host) then (404, st)
      else if !(actor == l.host) then (403, st)
      else
        (200, { st with
                  bookings := setFirst (fun b2 => b2.booking_id == booking_id)
                    (fun b2 => { b2 with status := "confirmed" }) st.bookings })

/-- `BookingViewSet.cancel` (views.py lines 267-288) with the same
object retrieval: the guest or the host may set the status to
`cancelled` from any state; anyone else visible gets 403 (dead branch
given the queryset filter), invisible actors 404. -/
def BookingViewSet.cancel (st : State) (actor booking_id : Nat) :
    Nat × State :=
  match st.bookings.find? (fun b => b.booking_id == booking_id) with
  | none => (404, st)
  | some b =>
    match st.listings.find? (fun l => l.property_id == b.listing) with
    | none => (404, st)
    | some l =>
      if !(actor == b.user || actor == l.host) then (404, st)
      else if !(actor == b.user || actor == l.host) then (403, st)
      else
        (200, { st with
                  bookings := setFirst (fun b2 => b2.booking_id == booking_id)
                    (fun b2 => { b2 with status := "cancelled" }) st.bookings })

/-- A row of `Payment` (models.py), restricted to the fields the payment
views read or write: `payment_id`, the nullable unique `chapa_reference`
(the tx_ref assigned at initialization), the `payment_status` enum
string, and the nullable `transaction_id` reported by the provider. -/
structure Payment where
  payment_id : Nat
  chapa_reference : Option String
  payment_status : String
  transaction_id : Option String
deriving DecidableEq

/-- The body Chapa posts to the webhook endpoint; each field is `none`
when the key is absent from the payload (`dict.get` yields `None`,
`dict[...]` raises `KeyError`). -/
structure WebhookData where
  tx_ref : Option String
  status : Option String
  reference : Option String
deriving DecidableEq

/-- Outcome of `ChapaService.verify_payment` (services.py lines
104-143): a structured success carrying the provider's data, or a
structured error message; the network call never raises past this
boundary.  Treated as an oracle parameter of the views. -/
inductive Verification
  | success (dataStatus : String)
  | failure (message : String)
deriving DecidableEq

/-- The dict `ChapaService.handle_webhook` returns (services.py lines
164-195): the payload's `tx_ref` and `status` echoed back, plus the
result of re-verifying the transaction with the provider. -/
structure HandleWebhookResp where
  tx_ref : Option String
  payment_status : Option String
  verification : Verification
deriving DecidableEq

/-- `ChapaService.handle_webhook` (services.py lines 164-195): reads
`tx_ref` and `status` from the payload with `.get`, calls
`verify_payment` and returns all three; its body cannot raise, so the
error branch is dead. -/
def ChapaService.handle_webhook (v : Verification) (wd : WebhookData) :
    HandleWebhookResp :=
  { tx_ref := wd.tx_ref, payment_status := wd.status, verification := v }

/-- The chained conditional of views.py line 445 mapping the payload's
provider status to the local `payment_status`. -/
def mapWebhookStatus (s : String) : String :=
  if s == "success" then "completed"
  else if s == "failed/cancelled" then "failed"
  else if s == "refunded" || s == "reversed" then s
  else "pending"

/-- The emails the webhook view submits to the task queue. -/
inductive Email
  | paymentConfirmed (payment_id : Nat)
  | paymentFailed (payment_id : Nat)
deriving DecidableEq

/-- Observable outcome of `PaymentWebhookView.post`: a 200 response
with the updated payment table, the dispatched emails and the
`handle_webhook` body, or the single generic 500 every exception in the
handler collapses to (views.py lines 456-461). -/
inductive WebhookOutcome
  | ok (payments : List Payment) (emails : List Email)
      (resp : HandleWebhookResp)
  | genericError
deriving DecidableEq

/-- `PaymentWebhookView.post` (views.py lines 435-461): run
`handle_webhook`, fetch the Payment by `chapa_reference == tx_ref`
(`DoesNotExist` → generic 500), compute the new `payment_status` from
the payload's `status` (`KeyError` when absent → generic 500), store the
payload's `reference` as `transaction_id` (`KeyError` when absent →
generic 500), save, then dispatch a confirmation email when the payload
status is `success` and a failure email when it is `failed`, and return
200 with the `handle_webhook` body. -/
def PaymentWebhookView.post (payments : List Payment) (v : Verification)
    (wd : WebhookData) : WebhookOutcome :=
  let resp := ChapaService.handle_webhook v wd
  match payments.find? (fun p => p.chapa_reference == wd.tx_ref) with
  | none => .genericError
  | some p =>
    match wd.status with
    | none => .genericError
    | some s =>
      match wd.reference with
      | none => .genericError
      | some r =>
        let payments' := setFirst (fun q => q.chapa_reference == wd.tx_ref)
          (fun q => { q with payment_status := mapWebhookStatus s,
                             transaction_id := some r }) payments
        let emails :=
          if s == "success" then [Email.paymentConfirmed p.payment_id]
          else if s == "failed" then [Email.paymentFailed p.payment_id]
          else []
        .ok payments' emails resp

/-- The payment table a webhook outcome persists, when any. -/
def WebhookOutcome.persisted : WebhookOutcome → Option (List Payment)
  | .ok payments _ _ => some payments
  | .genericError => none

/-- Observable response of `PaymentStatusView.get`. -/
inductive StatusViewResponse
  | ok (payment_status : String) (payment_data : String)
  | notFound
  | unhandledKeyError
deriving DecidableEq

/-- `PaymentStatusView.get` (views.py lines 397-430): calls
`get_payment_status` (which returns the `verify_payment` result) and
reads `verification_response['data']` before the `try` block — on a
gateway error that dict has no `data` key, so a `KeyError` escapes the
view unhandled.  On a verification success it fetches the Payment by
`chapa_reference` (`DoesNotExist` → 404) and answers 200 with the
locally stored `payment_status` and the gateway's `payment_data`.  The
view performs no write, so the payment table is returned unchanged. -/
def PaymentStatusView.get (payments : List Payment) (v : Verification)
    (tx_ref : String) : List Payment × StatusViewResponse :=
  match v with
  | .failure _ => (payments, .unhandledKeyError)
  | .success dataStatus =>
    match payments.find? (fun p => p.chapa_reference == some tx_ref) with
    | none => (payments, .notFound)
    | some p => (payments, .ok p.payment_status dataStatus)

/-! Concrete rows and states used to evaluate the model on explicit
inputs. -/

/-- A listing: property 1, host user 10, 100 per night. -/
def exL : Listing := ⟨1, 10, 100⟩

/-- Initial state: one listing, no bookings. -/
def exInit : State := ⟨[exL], []⟩

/-- Booking 1 by guest 20 on property 1, days [0,5), status pending. -/
def exB1 : Booking := ⟨1, 1, 20, 0, 5, 500, "pending"⟩

/-- A state whose table holds the one pending booking — in the claimed
behaviour a request for the same dates would be rejected as
unavailable. -/
def exStBooked : State := ⟨[exL], [exB1]⟩

/-- A state with a pending booking, used against the confirm action. -/
def exStC7 : State := ⟨[exL], [exB1]⟩

/-- A pending payment row with `chapa_reference = "X"`. -/
def exPay : Payment := ⟨1, some "X", "pending", none⟩

/-- A one-row payment table. -/
def exPays : List Payment := [exPay]

/-- A well-formed success webhook payload for tx_ref `X`. -/
def exWdSuccess : WebhookData := ⟨some "X", some "success", some "R1"⟩

/-- A well-formed payload carrying the provider's failure signal. -/
def exWdFailedCancelled : WebhookData :=
  ⟨some "X", some "failed/cancelled", some "R1"⟩

/-- A well-formed payload with the literal status `failed`. -/
def exWdFailed : WebhookData := ⟨some "X", some "failed", some "R1"⟩

/-- A payload whose `status` key is missing (malformed). -/
def exWdNoStatus : WebhookData := ⟨some "X", none, some "R1"⟩

/-- A provider verification answering success. -/
def exVerif : Verification := .success "success"

/-- The payment row after the success webhook is applied. -/
def exPayCompleted : Payment := ⟨1, some "X", "completed", some "R1"⟩

/-- The payment row after the `failed/cancelled` webhook is applied. -/
def exPayFailed : Payment := ⟨1, some "X", "failed", some "R1"⟩

/-- The payment row after the literal `failed` webhook is applied. -/
def exPayPending : Payment := ⟨1, some "X", "pending", some "R1"⟩

/-- The `handle_webhook` body for the success payload. -/
def exRespSuccess : HandleWebhookResp := ⟨some "X", some "success", exVerif⟩

/-! Helper lemmas. -/

/-- Finding again after `setFirst` with a predicate-preserving update
returns the updated element. -/
theorem setFirst_find? {α : Type} (p : α → Bool) (f : α → α)
    (hp : ∀ x, p (f x) = p x) (l : List α) :
    (setFirst p f l).find? p = (l.find? p).map f := by
  induction l with
  | nil => rfl
  | cons x xs ih =>
    by_cases hx : p x = true
    · simp [setFirst, hx, List.find?_cons_of_pos, hp x]
    · have hx' : p x = false := by
        cases hpx : p x
        · rfl
        · exact absurd hpx hx
      rw [setFirst, if_neg (by simp [hx']),
        List.find?_cons_of_neg _ (by simp [hx']),
        List.find?_cons_of_neg _ (by simp [hx']), ih]

/-- Applying the same predicate-preserving idempotent update twice is
the same as applying it once. -/
theorem setFirst_setFirst {α : Type} (p : α → Bool) (f : α → α)
    (hp : ∀ x, p (f x) = p x) (hf : ∀ x, f (f x) = f x) (l : List α) :
    setFirst p f (setFirst p f l) = setFirst p f l := by
  induction l with
  | nil => rfl
  | cons x xs ih =>
    by_cases hx : p x = true
    · simp [setFirst, hx, hp x, hf x]
    · simp [setFirst, hx, ih]

/-- The chained conditional of views.py line 445 agrees with the
explicit status table of the specification. -/
theorem mapWebhookStatus_eq_table (s : String) :
    mapWebhookStatus s =
      if s = "success" then "completed"
      else if s = "failed/cancelled" then "failed"
      else if s = "refunded" ∨ s = "reversed" then s
      else "pending" := by
  unfold mapWebhookStatus
  by_cases h1 : s = "success"
  · simp [h1]
  · by_cases h2 : s = "failed/cancelled"
    · simp [h1, h2]
    · by_cases h3 : s = "refunded"
      · simp [h1, h2, h3]
      · by_cases h4 : s = "reversed"
        · simp [h1, h2, h3, h4]
        · simp [h1, h2, h3, h4]

/-! Claim theorems. -/

/-- Claim C2 (code bug): the spec scenario — property priced 100 per
night, a 4-night booking with valid dates on the existing property and
an empty booking table — never reaches the claimed success path: the
overlap queryset `Booking.objects.filter(property=...)` raises
`FieldError` (the model field is `listing`), so validation crashes with
an HTTP 500 and nothing is persisted, instead of creating a booking
with `total_price 400` and status `pending`. -/
theorem claim_C2_bug :
    BookingCreateSerializer.validate exInit.listings exInit.bookings 1 0 4
        = .error .fieldError ∧
    BookingCreateSerializer.create exInit 20 1 1 0 4
        = .error .fieldError :=
  ⟨rfl, rfl⟩

/-- Claim C8: a booking request with `end_date ≤ start_date` fails
validation with the distinct date error, regardless of the stored
bookings and listings (so before any overlap or existence check), and
the creation operation persists nothing. -/
theorem claim_C8 (st : State) (actor new_id property_id : Nat) (s e : Int)
    (h : e ≤ s) :
    BookingCreateSerializer.validate st.listings st.bookings property_id s e
        = .error .endDateNotAfterStart ∧
    BookingCreateSerializer.create st actor new_id property_id s e
        = .error .endDateNotAfterStart := by
  have hv : BookingCreateSerializer.validate st.listings st.bookings
      property_id s e = .error .endDateNotAfterStart := by
    unfold BookingCreateSerializer.validate
    rw [if_pos h]
  refine ⟨hv, ?_⟩
  unfold BookingCreateSerializer.create
  rw [hv]

/-- Claim C10: the payment-status view modifies no Payment row — the
table after the call is the table before it — and on a verification
success the `payment_status` it reports is the locally stored one, not
the status the gateway reported. -/
theorem claim_C10 (payments : List Payment) (v : Verification)
    (tx_ref : String) (p : Payment) (d : String) :
    (PaymentStatusView.get payments v tx_ref).1 = payments ∧
    ((payments.find? fun q => q.chapa_reference == some tx_ref) = some p →
      (PaymentStatusView.get payments (Verification.success d) tx_ref).2 =
        .ok p.payment_status d) := by
  constructor
  · cases v with
    | failure m => rfl
    | success ds =>
      unfold PaymentStatusView.get
      cases hf : payments.find? (fun q => q.chapa_reference == some tx_ref) <;>
        simp [hf]
  · intro hp
    simp [PaymentStatusView.get, hp]

/-- Witness for claim C10 at a concrete table: the stored status
`pending` is returned even though the gateway reports `success`. -/
theorem claim_C10_witness :
    (PaymentStatusView.get exPays (Verification.success "success") "X").1 =
      exPays ∧
    (PaymentStatusView.get exPays (Verification.success "success") "X").2 =
      .ok exPay.payment_status "success" :=
  ⟨(claim_C10 exPays (Verification.success "success") "X" exPay "success").1,
    (claim_C10 exPays (Verification.success "success") "X" exPay "success").2
      rfl⟩

/-- Witness for claim C8: a zero-length range (5,5) is rejected with
the date error on a concrete state. -/
theorem claim_C8_witness :
    BookingCreateSerializer.validate exInit.listings exInit.bookings 1 5 5
        = .error .endDateNotAfterStart ∧
    BookingCreateSerializer.create exInit 20 1 1 5 5
        = .error .endDateNotAfterStart :=
  claim_C8 exInit 20 1 1 5 5 (by decide)

/-- Claim C3: for every webhook payload carrying a status and a
reference whose `tx_ref` matches a stored Payment, the view rewrites
that row's `payment_status` through the fixed table (success→completed,
failed/cancelled→failed, refunded/reversed unchanged, anything
else→pending) and persists the payload's `reference` as the row's
`transaction_id`. -/
theorem claim_C3 (payments : List Payment) (v : Verification)
    (wd : WebhookData) (s r : String) (p : Payment)
    (hs : wd.status = some s) (hr : wd.reference = some r)
    (hp : payments.find? (fun q => q.chapa_reference == wd.tx_ref) = some p) :
    ∃ emails, PaymentWebhookView.post payments v wd =
      .ok (setFirst (fun q => q.chapa_reference == wd.tx_ref)
            (fun q => { q with
              payment_status :=
                if s = "success" then "completed"
                else if s = "failed/cancelled" then "failed"
                else if s = "refunded" ∨ s = "reversed" then s
                else "pending",
              transaction_id := some r }) payments)
        emails (ChapaService.handle_webhook v wd) := by
  refine ⟨if s == "success" then [Email.paymentConfirmed p.payment_id]
    else if s == "failed" then [Email.paymentFailed p.payment_id]
    else [], ?_⟩
  have hfun : (fun q : Payment => { q with
        payment_status := mapWebhookStatus s, transaction_id := some r }) =
      (fun q : Payment => { q with
        payment_status :=
          if s = "success" then "completed"
          else if s = "failed/cancelled" then "failed"
          else if s = "refunded" ∨ s = "reversed" then s
          else "pending",
        transaction_id := some r }) := by
    funext q
    rw [mapWebhookStatus_eq_table]
  simp only [PaymentWebhookView.post, hp, hs, hr]
  rw [hfun]

/-- Witness for claim C3: the success payload for tx_ref `X` updates
the matching row through the table and stores reference `R1`. -/
theorem claim_C3_witness :
    ∃ emails, PaymentWebhookView.post exPays exVerif exWdSuccess =
      .ok (setFirst (fun q => q.chapa_reference == exWdSuccess.tx_ref)
            (fun q => { q with
              payment_status :=
                if "success" = "success" then "completed"
                else if "success" = "failed/cancelled" then "failed"
                else if "success" = "refunded" ∨ "success" = "reversed" then
                  "success"
                else "pending",
              transaction_id := some "R1" }) exPays)
        emails (ChapaService.handle_webhook exVerif exWdSuccess) :=
  claim_C3 exPays exVerif exWdSuccess "success" "R1" exPay rfl rfl rfl

/-- Claim C4 (code bug): the provider's failure signal
`failed/cancelled` drives the row to the terminal state `failed` yet no
failure email is dispatched, because the email guard compares against
the literal `failed` — which in turn maps the row to `pending` while
dispatching a failure email. -/
theorem claim_C4_bug :
    PaymentWebhookView.post exPays (.success "failed") exWdFailedCancelled =
      .ok [exPayFailed] []
        (ChapaService.handle_webhook (.success "failed")
          exWdFailedCancelled) ∧
    exPayFailed.payment_status = "failed" ∧
    PaymentWebhookView.post exPays (.success "failed") exWdFailed =
      .ok [exPayPending] [Email.paymentFailed 1]
        (ChapaService.handle_webhook (.success "failed") exWdFailed) ∧
    exPayPending.payment_status = "pending" :=
  ⟨rfl, rfl, rfl, rfl⟩

/-- Counterexample to claim C6: two payloads with the same `tx_ref`,
processed under the same provider verification result, persist
different payment states when their asserted `status` fields differ:
the payload, not the verification, decides what is stored. -/
theorem claim_C6_counterexample :
    (PaymentWebhookView.post exPays exVerif exWdSuccess).persisted =
      some [exPayCompleted] ∧
    (PaymentWebhookView.post exPays exVerif exWdFailedCancelled).persisted =
      some [exPayFailed] ∧
    exPayCompleted ≠ exPayFailed :=
  ⟨rfl, rfl, by decide⟩

/-- Claim C6 as amended: the webhook handler does call the provider's
verification, but the persisted payment table is identical for any two
verification outcomes — the stored state depends only on the payload. -/
theorem claim_C6_amended (payments : List Payment) (wd : WebhookData)
    (v1 v2 : Verification) :
    (PaymentWebhookView.post payments v1 wd).persisted =
      (PaymentWebhookView.post payments v2 wd).persisted := by
  obtain ⟨t, os, orf⟩ := wd
  cases hf : payments.find? (fun p => p.chapa_reference == t) with
  | none => simp [PaymentWebhookView.post, hf]
  | some p =>
    cases os <;> cases orf <;>
      simp [PaymentWebhookView.post, hf, WebhookOutcome.persisted]

/-- Counterexample to claim C9: two different failure modes of the
webhook endpoint — payment record not found, and a malformed payload
whose `status` key is missing — are reported with the identical generic
500 condition, so they are not distinguishable by the caller. -/
theorem claim_C9_counterexample :
    PaymentWebhookView.post [] exVerif exWdSuccess =
      WebhookOutcome.genericError ∧
    PaymentWebhookView.post exPays exVerif exWdNoStatus =
      WebhookOutcome.genericError ∧
    PaymentWebhookView.post [] exVerif exWdSuccess =
      PaymentWebhookView.post exPays exVerif exWdNoStatus :=
  ⟨rfl, rfl, rfl⟩

/-- Claim C9 as amended: in the status view a missing payment record is
reported distinctly (404) while a gateway error escapes as an unhandled
`KeyError` rather than the handled branch; in the webhook view both a
missing payment record and a malformed payload collapse to the same
generic 500; every mode still yields a response (nothing crashes). -/
theorem claim_C9_amended (payments : List Payment) (d m tx_ref : String)
    (v : Verification) (wd wd2 : WebhookData)
    (h1 : payments.find? (fun p => p.chapa_reference == some tx_ref) = none)
    (h2 : payments.find? (fun p => p.chapa_reference == wd.tx_ref) = none)
    (h3 : wd2.status = none) :
    (PaymentStatusView.get payments (.success d) tx_ref).2 = .notFound ∧
    (PaymentStatusView.get payments (.failure m) tx_ref).2 =
      .unhandledKeyError ∧
    PaymentWebhookView.post payments v wd = .genericError ∧
    PaymentWebhookView.post payments v wd2 = .genericError := by
  refine ⟨?_, rfl, ?_, ?_⟩
  · simp [PaymentStatusView.get, h1]
  · simp [PaymentWebhookView.post, h2]
  · cases hf : payments.find? (fun p => p.chapa_reference == wd2.tx_ref) with
    | none => simp [PaymentWebhookView.post, hf]
    | some p => simp [PaymentWebhookView.post, hf, h3]

/-- Witness for the amended claim C9 on an empty payment table. -/
theorem claim_C9_amended_witness :
    (PaymentStatusView.get [] (.success "success") "X").2 =
      .notFound ∧
    (PaymentStatusView.get [] (.failure "timeout") "X").2 =
      .unhandledKeyError ∧
    PaymentWebhookView.post [] exVerif exWdSuccess = .genericError ∧
    PaymentWebhookView.post [] exVerif exWdNoStatus = .genericError :=
  claim_C9_amended [] "success" "timeout" "X" exVerif exWdSuccess
    exWdNoStatus rfl rfl rfl

/-- Counterexample to claim C5: replaying the success webhook leaves
the row unchanged but dispatches the confirmation notification again —
there is no dedupe guard. -/
theorem claim_C5_counterexample :
    PaymentWebhookView.post exPays exVerif exWdSuccess =
      .ok [exPayCompleted] [Email.paymentConfirmed 1] exRespSuccess ∧
    PaymentWebhookView.post [exPayCompleted] exVerif exWdSuccess =
      .ok [exPayCompleted] [Email.paymentConfirmed 1] exRespSuccess ∧
    ([Email.paymentConfirmed 1] : List Email) ≠ [] :=
  ⟨rfl, rfl, by decide⟩

/-- Claim C5 as amended: webhook processing is idempotent on the
Payment row — re-applying any payload to its own result returns the
very same table — but each replay re-dispatches the same notification
instead of deduplicating it. -/
theorem claim_C5_amended (payments ps1 : List Payment) (em1 : List Email)
    (r1 : HandleWebhookResp) (v : Verification) (wd : WebhookData)
    (h : PaymentWebhookView.post payments v wd = .ok ps1 em1 r1) :
    PaymentWebhookView.post ps1 v wd = .ok ps1 em1 r1 := by
  unfold PaymentWebhookView.post at h ⊢
  cases hf : payments.find? (fun p => p.chapa_reference == wd.tx_ref) with
  | none => rw [hf] at h; cases h
  | some p =>
    rw [hf] at h
    cases hs : wd.status with
    | none => rw [hs] at h; cases h
    | some s =>
      rw [hs] at h
      cases hr : wd.reference with
      | none => rw [hr] at h; cases h
      | some r =>
        rw [hr] at h
        simp only [WebhookOutcome.ok.injEq] at h
        obtain ⟨hps, hem, hr1⟩ := h
        have hpf : ∀ q : Payment,
            (({ q with payment_status := mapWebhookStatus s,
                       transaction_id := some r } : Payment).chapa_reference ==
                wd.tx_ref) =
              (q.chapa_reference == wd.tx_ref) := fun q => rfl
        have hfind2 : ps1.find? (fun q => q.chapa_reference == wd.tx_ref) =
            some { p with payment_status := mapWebhookStatus s,
                          transaction_id := some r } := by
          rw [← hps,
            setFirst_find? (fun q : Payment => q.chapa_reference == wd.tx_ref)
              (fun q : Payment =>
                { q with payment_status := mapWebhookStatus s,
                         transaction_id := some r }) hpf, hf]
          rfl
        rw [hfind2]
        simp only [WebhookOutcome.ok.injEq]
        refine ⟨?_, ?_, hr1⟩
        · rw [← hps,
            setFirst_setFirst (fun q : Payment => q.chapa_reference == wd.tx_ref)
              (fun q : Payment =>
                { q with payment_status := mapWebhookStatus s,
                         transaction_id := some r }) hpf (fun q => rfl)]
        · exact hem

/-- Witness for the amended claim C5: replaying the success webhook on
its own result is a fixed point. -/
theorem claim_C5_amended_witness :
    PaymentWebhookView.post [exPayCompleted] exVerif exWdSuccess =
      .ok [exPayCompleted] [Email.paymentConfirmed 1] exRespSuccess :=
  claim_C5_amended exPays [exPayCompleted] [Email.paymentConfirmed 1]
    exRespSuccess exVerif exWdSuccess rfl

/-- Counterexample to claim C7: an actor who is neither the guest nor
the host (user 99) receives a 404 from the filtered queryset, not the
403 authorization failure the claim asserts for every non-host actor. -/
theorem claim_C7_counterexample :
    (99 : Nat) ≠ exL.host ∧
    BookingViewSet.confirm exStC7 99 1 = (404, exStC7) ∧
    (BookingViewSet.confirm exStC7 99 1).1 ≠ 403 :=
  ⟨by decide, rfl, by decide⟩

/-- Claim C7 as amended: confirming a stored booking succeeds exactly
for the property's host, setting the status to `confirmed`; the guest
(a non-host actor who can see the booking) receives 403 with the state
unchanged, and every other actor receives 404 with the state
unchanged. -/
theorem claim_C7_amended (st : State) (actor booking_id : Nat) (b : Booking)
    (l : Listing)
    (hb : st.bookings.find? (fun b2 => b2.booking_id == booking_id) = some b)
    (hl : st.listings.find? (fun l2 => l2.property_id == b.listing) = some l) :
    (actor = l.host → BookingViewSet.confirm st actor booking_id =
      (200,
        { st with
            bookings := setFirst (fun b2 => b2.booking_id == booking_id)
              (fun b2 => { b2 with status := "confirmed" }) st.bookings })) ∧
    (actor ≠ l.host → BookingViewSet.confirm st actor booking_id =
      (if actor = b.user then (403, st) else (404, st))) := by
  constructor
  · intro ha
    simp [BookingViewSet.confirm, hb, hl, ha]
  · intro hna
    by_cases hu : actor = b.user
    · have hbu : ¬b.user = l.host := fun hh => hna (hu.trans hh)
      simp [BookingViewSet.confirm, hb, hl, hna, hu, hbu]
    · simp [BookingViewSet.confirm, hb, hl, hna, hu]

/-- Witness for the amended claim C7: the guest (user 20) attempting to
confirm their own pending booking gets 403 and the state is unchanged. -/
theorem claim_C7_amended_witness :
    BookingViewSet.confirm exStC7 20 1 = (403, exStC7) :=
  (claim_C7_amended exStC7 20 1 exB1 exL rfl rfl).2 (by decide)

/-- Claim C1 (code bug): the availability check the claim relies on is
dead code — a creation request with valid dates on the existing
property crashes with the `FieldError` from
`Booking.objects.filter(property=...)` whether the table is empty (the
claim expects a created booking) or already holds an overlapping
pending booking for the same dates (the claim expects the distinct
unavailability rejection); in both cases the response is a 500 and
nothing is persisted, so creation never evaluates overlap at all. -/
theorem claim_C1_bug :
    BookingCreateSerializer.create exInit 21 2 1 0 5
        = .error .fieldError ∧
    BookingCreateSerializer.create exStBooked 21 2 1 0 5
        = .error .fieldError ∧
    BookingCreateSerializer.validate exStBooked.listings exStBooked.bookings
        1 0 5 = .error .fieldError :=
  ⟨rfl, rfl, rfl⟩

end AlxTravel
